import Mathlib

/-!
Shallow embedding of the Newapi-checkin notifier modules
(`dingtalk_notifier.py` and `feishu_notifier.py`) and proofs about the
claims of the specification.

Modelling conventions:
* Python `int` is `Int` (or `Nat` where the code guarantees non-negativity).
* Python byte strings are `List Nat` with every element `< 256`.
* A result record (a Python dict with optional keys) is a structure whose
  optional fields are `Option`-valued; `r.get(k, d)` becomes `Option.getD`.
* Python truthiness of an optional bool field is a plain `Bool`
  (absent key and `False` are both falsy, hence both `false`).
* Current time (`time.time()`, `datetime.now()`) is passed as an explicit
  parameter, since it is the only effect the signing code performs.
* CPython float formatting of `quota / 1000` with two decimals is modelled
  by round-half-even on the exact rational; the two agree whenever the
  quotient is exactly representable as a double, which holds at every
  input evaluated in this development.
-/

namespace NewapiCheckin

/-- A check-in result record: the Python dict read by both report builders.
Fields mirror the keys the source reads: name, success, message,
quota_awarded, checkin_count, session_expired.  `success` and
`session_expired` record the truthiness of `r.get(key)`; the other fields
are `none` when the key is absent. -/
structure Result where
  name : Option String := none
  success : Bool := false
  message : Option String := none
  quota_awarded : Option Int := none
  checkin_count : Option Int := none
  session_expired : Bool := false
deriving DecidableEq, Repr

/-- Render a non-negative rational `num / den` with exactly two decimal
places, rounding half to even, as CPython string formatting does with a
two-decimal format spec.  Used to model the quota formatting in both
provider modules. -/
def fmtTwoDecimals (num den : Nat) : String :=
  let n := num * 100
  let q := n / den
  let r := n % den
  let h := if 2 * r < den then q
           else if den < 2 * r then q + 1
           else if q % 2 = 0 then q else q + 1
  let frac := h % 100
  toString (h / 100) ++ "." ++ (if frac < 10 then "0" ++ toString frac else toString frac)

namespace DingTalk

/-- Embedding of dingtalk_notifier.format_quota: at least a million is
rendered in units of M, at least a thousand in units of K, both with two
decimals, anything smaller as the literal integer. -/
def format_quota (quota : Int) : String :=
  if 1000000 ≤ quota then fmtTwoDecimals quota.toNat 1000000 ++ "M"
  else if 1000 ≤ quota then fmtTwoDecimals quota.toNat 1000 ++ "K"
  else toString quota

end DingTalk

namespace Feishu

/-- Embedding of feishu_notifier.format_quota; the source text is
character-for-character the same function as the DingTalk one. -/
def format_quota (quota : Int) : String :=
  if 1000000 ≤ quota then fmtTwoDecimals quota.toNat 1000000 ++ "M"
  else if 1000 ≤ quota then fmtTwoDecimals quota.toNat 1000 ++ "K"
  else toString quota

end Feishu

example : DingTalk.format_quota 500000 = "500.00K" := by decide
example : DingTalk.format_quota 1500 = "1.50K" := by decide
example : DingTalk.format_quota 999 = "999" := by decide
example : DingTalk.format_quota 1000000 = "1.00M" := by decide
example : DingTalk.format_quota 2345678 = "2.35M" := by decide
example : DingTalk.format_quota 100000 = "100.00K" := by decide

namespace Crypto

/-- Truncation to a 32-bit word. -/
def w32 (n : Nat) : Nat := n % 4294967296

/-- Right rotation of a 32-bit word. -/
def rotr (x n : Nat) : Nat := w32 ((x >>> n) ||| (x <<< (32 - n)))

def bigSigma0 (x : Nat) : Nat := rotr x 2 ^^^ rotr x 13 ^^^ rotr x 22

def bigSigma1 (x : Nat) : Nat := rotr x 6 ^^^ rotr x 11 ^^^ rotr x 25

def smallSigma0 (x : Nat) : Nat := rotr x 7 ^^^ rotr x 18 ^^^ (x >>> 3)

def smallSigma1 (x : Nat) : Nat := rotr x 17 ^^^ rotr x 19 ^^^ (x >>> 10)

/-- The SHA-256 round constants, written in decimal. -/
def K : List Nat :=
  [1116352408, 1899447441, 3049323471, 3921009573, 961987163,
   1508970993, 2453635748, 2870763221, 3624381080, 310598401,
   607225278, 1426881987, 1925078388, 2162078206, 2614888103,
   3248222580, 3835390401, 4022224774, 264347078, 604807628,
   770255983, 1249150122, 1555081692, 1996064986, 2554220882,
   2821834349, 2952996808, 3210313671, 3336571891, 3584528711,
   113926993, 338241895, 666307205, 773529912, 1294757372,
   1396182291, 1695183700, 1986661051, 2177026350, 2456956037,
   2730485921, 2820302411, 3259730800, 3345764771, 3516065817,
   3600352804, 4094571909, 275423344, 430227734, 506948616,
   659060556, 883997877, 958139571, 1322822218, 1537002063,
   1747873779, 1955562222, 2024104815, 2227730452, 2361852424,
   2428436474, 2756734187, 3204031479, 3329325298]

/-- The SHA-256 initial hash state, written in decimal. -/
def initH : List Nat :=
  [1779033703, 3144134277, 1013904242, 2773480762, 1359893119,
   2600822924, 528734635, 1541459225]

/-- The `k` most significant bytes of `n`, big-endian. -/
def beBytes : Nat → Nat → List Nat
  | 0, _ => []
  | k + 1, n => beBytes k (n >>> 8) ++ [n % 256]

/-- Group bytes into big-endian 32-bit words (trailing fragment dropped;
the input is always a multiple of four bytes). -/
def toWords : List Nat → List Nat
  | b0 :: b1 :: b2 :: b3 :: rest =>
      (((b0 * 256 + b1) * 256 + b2) * 256 + b3) :: toWords rest
  | _ => []

/-- Split a word list into blocks of 16 words; the fuel argument (any
bound on the number of words) keeps the recursion structural. -/
def chunk16 : Nat → List Nat → List (List Nat)
  | 0, _ => []
  | _ + 1, [] => []
  | fuel + 1, ws => ws.take 16 :: chunk16 fuel (ws.drop 16)

/-- Extend a 16-word block to the 64-word message schedule; fuel is the
number of words still to append (48 at the top call). -/
def extendSchedule : Nat → List Nat → List Nat
  | 0, w => w
  | fuel + 1, w =>
      let n := w.length
      let next := w32 (smallSigma1 (w.getD (n - 2) 0) + w.getD (n - 7) 0 +
                       smallSigma0 (w.getD (n - 15) 0) + w.getD (n - 16) 0)
      extendSchedule fuel (w ++ [next])

/-- One SHA-256 compression round on the eight-word working state. -/
def roundStep (k w : Nat) (s : List Nat) : List Nat :=
  match s with
  | [a, b, c, d, e, f, g, h] =>
      let ch := (e &&& f) ^^^ ((e ^^^ 4294967295) &&& g)
      let maj := (a &&& b) ^^^ (a &&& c) ^^^ (b &&& c)
      let t1 := w32 (h + bigSigma1 e + ch + k + w)
      let t2 := w32 (bigSigma0 a + maj)
      [w32 (t1 + t2), a, b, c, w32 (d + t1), e, f, g]
  | s => s

/-- Run the 64 compression rounds, consuming the constants and the
schedule in lockstep. -/
def rounds : List Nat → List Nat → List Nat → List Nat
  | [], _, s => s
  | _ :: _, [], s => s
  | k :: ks, w :: ws, s => rounds ks ws (roundStep k w s)

/-- Compress one 16-word block into the running hash state. -/
def compress (h : List Nat) (block : List Nat) : List Nat :=
  let s := rounds K (extendSchedule 48 block) h
  List.zipWith (fun a b => w32 (a + b)) h s

/-- SHA-256 of a byte string, as a 32-byte string. -/
def sha256 (msg : List Nat) : List Nat :=
  let padded := msg ++ [128] ++ List.replicate ((119 - msg.length % 64) % 64) 0
                ++ beBytes 8 (8 * msg.length)
  let ws := toWords padded
  let blocks := chunk16 ws.length ws
  (blocks.foldl compress initH).foldr (fun w acc => beBytes 4 w ++ acc) []

/-- HMAC-SHA256 (block size 64) of a message under a key, both byte
strings; this is what hmac.new(key, msg, sha256).digest() computes. -/
def hmacSha256 (key msg : List Nat) : List Nat :=
  let k0 := if 64 < key.length then sha256 key else key
  let kPad := k0 ++ List.replicate (64 - k0.length) 0
  let ipadKey := kPad.map fun b => b ^^^ 54
  let opadKey := kPad.map fun b => b ^^^ 92
  sha256 (opadKey ++ sha256 (ipadKey ++ msg))

/-- The base64 alphabet. -/
def base64Alphabet : List Char :=
  "ABCDEFGHIJKLMNOPQRSTUVWXYZabcdefghijklmnopqrstuvwxyz0123456789+/".data

/-- The ASCII code of the base64 digit for a 6-bit value. -/
def b64Byte (n : Nat) : Nat := (base64Alphabet.getD n 'A').toNat

/-- base64.b64encode: encode a byte string as the ASCII bytes of its
base64 rendering, with trailing padding bytes 61 (the equals sign). -/
def base64EncodeBytes : List Nat → List Nat
  | [] => []
  | [a] => [b64Byte (a >>> 2), b64Byte ((a % 4) <<< 4), 61, 61]
  | [a, b] => [b64Byte (a >>> 2), b64Byte (((a % 4) <<< 4) ||| (b >>> 4)),
               b64Byte ((b % 16) <<< 2), 61]
  | a :: b :: c :: rest =>
      [b64Byte (a >>> 2), b64Byte (((a % 4) <<< 4) ||| (b >>> 4)),
       b64Byte (((b % 16) <<< 2) ||| (c >>> 6)), b64Byte (c % 64)] ++ base64EncodeBytes rest

/-- bytes.decode of an ASCII byte string. -/
def asciiDecode (bs : List Nat) : String := String.mk (bs.map Char.ofNat)

/-- UTF-8 encoding of one code point. -/
def utf8Char (c : Char) : List Nat :=
  let n := c.toNat
  if n < 128 then [n]
  else if n < 2048 then [192 + n / 64, 128 + n % 64]
  else if n < 65536 then [224 + n / 4096, 128 + n / 64 % 64, 128 + n % 64]
  else [240 + n / 262144, 128 + n / 4096 % 64, 128 + n / 64 % 64, 128 + n % 64]

/-- str.encode: the UTF-8 bytes of a string. -/
def utf8 (s : String) : List Nat := s.data.foldr (fun c acc => utf8Char c ++ acc) []

/-- The uppercase hexadecimal digit for a value below 16. -/
def hexDigit (n : Nat) : Char := "0123456789ABCDEF".data.getD n '0'

/-- The bytes urllib.parse never quotes: ASCII letters, digits, and the
four marks underscore, dot, dash, tilde. -/
def isAlwaysSafe (b : Nat) : Bool :=
  (65 ≤ b && b ≤ 90) || (97 ≤ b && b ≤ 122) || (48 ≤ b && b ≤ 57) ||
  b == 95 || b == 46 || b == 45 || b == 126

/-- How urllib.parse.quote_plus renders one byte. -/
def quotePlusByte (b : Nat) : List Char :=
  if isAlwaysSafe b then [Char.ofNat b]
  else if b == 32 then ['+']
  else ['%', hexDigit (b / 16), hexDigit (b % 16)]

/-- urllib.parse.quote_plus over a byte string (no extra safe characters,
as called in the source). -/
def quote_plus (bs : List Nat) : String :=
  String.mk (bs.foldr (fun b acc => quotePlusByte b ++ acc) [])

end Crypto

example : Crypto.utf8 "abc" = [97, 98, 99] := by decide
example : Crypto.utf8 "过" = [0xe8, 0xbf, 0x87] := by decide
example : Crypto.asciiDecode (Crypto.base64EncodeBytes [77, 97, 110]) = "TWFu" := by decide
example : Crypto.asciiDecode (Crypto.base64EncodeBytes [77, 97]) = "TWE=" := by decide
example : Crypto.quote_plus [97, 43, 47, 61, 32] = "a%2B%2F%3D+" := by decide

example : Crypto.sha256 (Crypto.utf8 "abc") =
  [186, 120, 22, 191, 143, 1, 207, 234, 65, 65, 64, 222, 93, 174, 34, 35,
   176, 3, 97, 163, 150, 23, 122, 156, 180, 16, 255, 97, 242, 0, 21, 173] := by decide

set_option maxRecDepth 4096 in
example : Crypto.hmacSha256 (Crypto.utf8 "Jefe") (Crypto.utf8 "what do ya want for nothing?") =
  [91, 220, 193, 70, 191, 96, 117, 78, 106, 4, 36, 38, 8, 149, 117, 199,
   90, 0, 63, 8, 157, 39, 57, 131, 157, 236, 88, 185, 100, 236, 56, 67] := by decide

/-- Containment of `sub` as a contiguous run inside a character list. -/
def listContains (sub : List Char) : List Char → Bool
  | [] => sub.isEmpty
  | c :: t => List.isPrefixOf sub (c :: t) || listContains sub t

/-- Python substring containment, the `sub in s` test on strings. -/
def pyContains (s sub : String) : Bool := listContains sub.data s.data

/-- str.lower, character-wise; Char.toLower agrees with CPython on the
ASCII range, which covers every character the session check inspects. -/
def pyLower (s : String) : String := String.mk (s.data.map Char.toLower)

example : pyContains "mySESSIONx" "session" = false := by decide
example : pyContains (pyLower "mySESSIONx") "session" = true := by decide
example : pyContains "Session 已过期" "过期" = true := by decide
example : pyContains "hello" "认证" = false := by decide

/-- A scalar JSON value as Python sees a parsed response field. -/
inductive PyValue where
  | int (n : Int)
  | str (s : String)
  | bool (b : Bool)
  | null
deriving DecidableEq, Repr

/-- dict.get with no default: the value at a key, if present. -/
def pyGet (d : List (String × PyValue)) (k : String) : Option PyValue :=
  (d.find? fun p => p.1 == k).map fun p => p.2

/-- Python equality of an optional field with the integer 0: an absent
field is never equal, an integer compares numerically, and a boolean
compares as its 0/1 value. -/
def pyEqZero : Option PyValue → Bool
  | some (.int n) => n == 0
  | some (.bool b) => !b
  | _ => false

/-- What one HTTP round-trip can look like from inside `_send`: either
some exception is raised along the way (connection failure, timeout,
a response body that is not JSON), or a parsed JSON object comes back. -/
inductive HttpOutcome where
  | raises
  | body (fields : List (String × PyValue))
deriving DecidableEq, Repr

namespace DingTalk

/-- DingTalkNotifier._get_sign, with the epoch-millisecond clock reading
passed in as `timestampMs`: the decimal timestamp together with the
percent-encoded base64 HMAC-SHA256 tag of "timestamp, newline, secret"
under the secret. -/
def get_sign (secret : String) (timestampMs : Nat) : String × String :=
  let timestamp := toString timestampMs
  let secret_enc := Crypto.utf8 secret
  let string_to_sign := timestamp ++ "\n" ++ secret
  let string_to_sign_enc := Crypto.utf8 string_to_sign
  let hmac_code := Crypto.hmacSha256 secret_enc string_to_sign_enc
  let sign := Crypto.quote_plus (Crypto.base64EncodeBytes hmac_code)
  (timestamp, sign)

/-- Python truthiness of the notifier's optional secret. -/
def secretTruthy : Option String → Bool
  | none => false
  | some s => !(s == "")

/-- DingTalkNotifier._get_url: the webhook URL, extended with the
timestamp and sign query parameters when a secret is configured. -/
def get_url (webhook_url : String) (secret : Option String) (timestampMs : Nat) : String :=
  if secretTruthy secret then
    let p := get_sign (secret.getD "") timestampMs
    webhook_url ++ "&timestamp=" ++ p.1 ++ "&sign=" ++ p.2
  else webhook_url

/-- DingTalkNotifier._send: the boolean it returns for each possible
round-trip outcome.  The try block covers the whole body, so a raised
exception becomes `false`; otherwise the response's errcode field is
compared with 0. -/
def send (outcome : HttpOutcome) : Bool :=
  match outcome with
  | .raises => false
  | .body result => if pyEqZero (pyGet result "errcode") then true else false

/-- The session-expiry test of the failure-table loop in
build_checkin_report, where the message defaults to the unknown-error
literal. -/
def rowSessionFlag (r : Result) : Bool :=
  let message := r.message.getD "未知错误"
  r.session_expired || pyContains (pyLower message) "session" ||
    pyContains message "认证" || pyContains message "过期"

/-- The session-expiry test recomputed for the footer of
build_checkin_report, where the message defaults to the empty string. -/
def footSessionFlag (r : Result) : Bool :=
  let m := r.message.getD ""
  r.session_expired || pyContains (pyLower m) "session" ||
    pyContains m "认证" || pyContains m "过期"

/-- The body of the success-table loop of build_checkin_report: the row
emitted for one successful record. -/
def successRow (r : Result) : String :=
  let name := r.name.getD "未知账号"
  let quota := r.quota_awarded.getD 0
  let quota_str := if quota != 0 then "+" ++ format_quota quota else "-"
  let detail := match r.checkin_count with
    | some c => if c != 0 then "已签 " ++ toString c ++ " 天" else r.message.getD "成功"
    | none => r.message.getD "成功"
  "| " ++ name ++ " | " ++ quota_str ++ " | " ++ detail ++ " |"

/-- The body of the failure-table loop of build_checkin_report: the row
emitted for one failed record, with the warning marker prefixed to the
message when the session-expiry test fires. -/
def failRow (r : Result) : String :=
  let name := r.name.getD "未知账号"
  let message := r.message.getD "未知错误"
  let message := if rowSessionFlag r then "⚠️ " ++ message else message
  "| " ++ name ++ " | " ++ message ++ " |"

/-- The fixed footer warning appended when some failed account looks
session-expired. -/
def warnFooterLine : String := "> ⚠️ **注意**: 部分账号 Session 已失效，请及时更新 Cookie！"

/-- The summary line of build_checkin_report, selected from the success
and failure counts. -/
def summaryLine (results : List Result) : String :=
  let success_count := (results.filter fun r => r.success).length
  let fail_count := (results.filter fun r => !r.success).length
  let total := results.length
  if fail_count = 0 then
    "**汇总**: 全部成功 ✨ (" ++ toString success_count ++ "/" ++ toString total ++ ")"
  else if success_count = 0 then
    "**汇总**: 全部失败 ⚠️ (" ++ toString fail_count ++ "/" ++ toString total ++ ")"
  else
    "**汇总**: 成功 " ++ toString success_count ++ "，失败 " ++ toString fail_count

/-- The markdown lines accumulated by build_checkin_report; the report is
these lines joined with newlines.  The two table loops appear as maps of
`successRow` and `failRow` over the two filtered sublists. -/
def build_checkin_report_lines (results : List Result) (execution_time : String) : List String :=
  let success_list := results.filter fun r => r.success
  let fail_list := results.filter fun r => !r.success
  let lines0 : List String :=
    ["# 📋 NewAPI 签到报告", "", "**执行时间**: " ++ execution_time, "", "---", ""]
  let lines1 :=
    if success_list.isEmpty then lines0 else
      lines0 ++ ["## ✅ 成功 (" ++ toString success_list.length ++ "个)", "",
                 "| 账号 | 奖励 | 详情 |", "|------|------|------|"]
        ++ success_list.map successRow ++ [""]
  let lines2 :=
    if fail_list.isEmpty then lines1 else
      lines1 ++ ["## ❌ 失败 (" ++ toString fail_list.length ++ "个)", "",
                 "| 账号 | 原因 |", "|------|------|"]
        ++ fail_list.map failRow ++ [""]
  let lines3 := lines2 ++ ["---", ""]
  let lines4 := lines3 ++ [summaryLine results]
  let expired_accounts := fail_list.filter footSessionFlag
  if expired_accounts.isEmpty then lines4
  else lines4 ++ ["", warnFooterLine]

/-- build_checkin_report: the joined markdown report. -/
def build_checkin_report (results : List Result) (execution_time : String) : String :=
  String.intercalate "\n" (build_checkin_report_lines results execution_time)

/-- The outward action taken by the DingTalk send_checkin_notification. -/
inductive NotifyAction where
  | skip
  | sendMarkdown (title : String) (text : String) (webhook_url : String) (secret : Option String)
deriving DecidableEq, Repr

/-- send_checkin_notification, with the environment passed as a lookup
function and the formatted current time (datetime.now) as `now`: skips
with no report and no request when the webhook variable is absent or
empty, otherwise builds the report and hands a markdown message to the
notifier. -/
def send_checkin_notification (env : String → Option String) (results : List Result)
    (execution_time : Option String) (now : String) : NotifyAction :=
  let webhook_url := (env "DINGTALK_WEBHOOK").getD ""
  let secret := (env "DINGTALK_SECRET").getD ""
  if webhook_url == "" then .skip
  else
    let t := match execution_time with
      | some s => if s == "" then now else s
      | none => now
    let report := build_checkin_report results t
    let success_count := (results.filter fun r => r.success).length
    let fail_count := (results.filter fun r => !r.success).length
    let title :=
      if fail_count = 0 then "✅ 签到成功 (" ++ toString success_count ++ "个账号)"
      else if success_count = 0 then "❌ 签到失败 (" ++ toString fail_count ++ "个账号)"
      else "📋 签到完成 (成功" ++ toString success_count ++ "/失败" ++ toString fail_count ++ ")"
    .sendMarkdown title report webhook_url (if secret == "" then none else some secret)

/-- The boolean send_checkin_notification returns, given the boolean the
transport layer would produce for a message that is actually sent. -/
def notifyReturn (act : NotifyAction) (transportResult : Bool) : Bool :=
  match act with
  | .skip => false
  | .sendMarkdown _ _ _ _ => transportResult

end DingTalk

namespace Feishu

/-- One entry of the card's elements array: a markdown block, a divider,
or a note wrapping one plain-text element. -/
inductive CardElement where
  | markdown (content : String)
  | hr
  | note (content : String)
deriving DecidableEq, Repr

/-- The interactive card built by build_checkin_card: config flag, header
template and title, and the elements array. -/
structure Card where
  wide_screen_mode : Bool
  headerTemplate : String
  headerTitle : String
  elements : List CardElement
deriving DecidableEq, Repr

/-- _build_summary_title: the summary wording chosen from the two
counts. -/
def build_summary_title (success_count fail_count : Nat) : String :=
  if fail_count = 0 then "签到完成: 全部成功 (" ++ toString success_count ++ ")"
  else if success_count = 0 then "签到完成: 全部失败 (" ++ toString fail_count ++ ")"
  else "签到完成: 成功 " ++ toString success_count ++ " / 失败 " ++ toString fail_count

/-- _build_header_template: the header colour chosen from the two
counts. -/
def build_header_template (success_count fail_count : Nat) : String :=
  if fail_count = 0 then "green"
  else if success_count = 0 then "red"
  else "orange"

/-- The body of the success loop of build_checkin_card: the bullet line
for one successful record. -/
def successLine (r : Result) : String :=
  let name := r.name.getD "未知账号"
  let quota := r.quota_awarded.getD 0
  let checkin_count := r.checkin_count.getD 0
  let quota_text := if quota != 0 then "+" ++ format_quota quota else "-"
  "- `" ++ name ++ "` | 奖励: `" ++ quota_text ++ "` | 本月: `" ++ toString checkin_count ++ "` 天"

/-- The body of the failure loop of build_checkin_card: the bullet line
for one failed record; the message is rendered as-is. -/
def failLine (r : Result) : String :=
  let name := r.name.getD "未知账号"
  let message := r.message.getD "未知错误"
  "- `" ++ name ++ "` | 原因: " ++ message

/-- build_checkin_card: the interactive card for a batch of results.  The
two loops appear as maps of `successLine` and `failLine` over the two
filtered sublists. -/
def build_checkin_card (results : List Result) (execution_time : String) : Card :=
  let success_list := results.filter fun r => r.success
  let fail_list := results.filter fun r => !r.success
  let success_count := success_list.length
  let fail_count := fail_list.length
  let baseElements : List CardElement :=
    [.markdown ("**执行时间**: " ++ execution_time ++ "\n**账号总数**: " ++ toString results.length),
     .hr]
  let els1 :=
    if success_list.isEmpty then baseElements else
      baseElements ++ [.markdown (String.intercalate "\n"
        (("✅ **成功 " ++ toString success_count ++ " 个**") :: success_list.map successLine))]
  let els2 :=
    if fail_list.isEmpty then els1 else
      (if success_list.isEmpty then els1 else els1 ++ [.hr]) ++
      [.markdown (String.intercalate "\n"
        (("❌ **失败 " ++ toString fail_count ++ " 个**") :: fail_list.map failLine))]
  let els3 := els2 ++ [.hr,
    .note ("汇总: 成功 " ++ toString success_count ++ "，失败 " ++ toString fail_count)]
  { wide_screen_mode := true
    headerTemplate := build_header_template success_count fail_count
    headerTitle := "NewAPI 签到报告 | " ++ build_summary_title success_count fail_count
    elements := els3 }

/-- FeishuNotifier._build_auth_fields, with the epoch-second clock
reading passed in as `timestampS`: empty when no secret is configured,
otherwise the timestamp and the plain (not percent-encoded) base64
HMAC-SHA256 tag. -/
def build_auth_fields (secret : Option String) (timestampS : Nat) : List (String × String) :=
  if DingTalk.secretTruthy secret then
    let s := secret.getD ""
    let timestamp := toString timestampS
    let string_to_sign := timestamp ++ "\n" ++ s
    let hmac_code := Crypto.hmacSha256 (Crypto.utf8 s) (Crypto.utf8 string_to_sign)
    let sign := Crypto.asciiDecode (Crypto.base64EncodeBytes hmac_code)
    [("timestamp", timestamp), ("sign", sign)]
  else []

/-- A value of the outgoing JSON payload dict: a string field or the
nested card object. -/
inductive PayloadValue where
  | str (s : String)
  | card (c : Card)
deriving DecidableEq, Repr

/-- Assignment of one key in a Python dict modelled as an association
list: overwrite in place if the key exists, else append. -/
def dictSet (d : List (String × PayloadValue)) (k : String) (v : PayloadValue) :
    List (String × PayloadValue) :=
  if d.any (fun p => p.1 == k) then d.map (fun p => if p.1 == k then (k, v) else p)
  else d ++ [(k, v)]

/-- dict.update on the association-list model. -/
def dictUpdate (d upd : List (String × PayloadValue)) : List (String × PayloadValue) :=
  upd.foldl (fun acc p => dictSet acc p.1 p.2) d

/-- The JSON payload send_interactive_card posts: the message-type and
card fields, updated with the auth fields. -/
def send_interactive_card_data (card : Card) (secret : Option String) (timestampS : Nat) :
    List (String × PayloadValue) :=
  dictUpdate [("msg_type", .str "interactive"), ("card", .card card)]
    ((build_auth_fields secret timestampS).map fun p => (p.1, PayloadValue.str p.2))

/-- FeishuNotifier._send: the boolean it returns for each possible
round-trip outcome; the try block covers the whole body, so a raised
exception becomes `false`, and otherwise the response's code field is
compared with 0. -/
def send (outcome : HttpOutcome) : Bool :=
  match outcome with
  | .raises => false
  | .body result => if pyEqZero (pyGet result "code") then true else false

/-- The outward action taken by the Feishu send_checkin_notification. -/
inductive NotifyAction where
  | skip
  | sendCard (card : Card) (webhook_url : String) (secret : Option String)
deriving DecidableEq, Repr

/-- send_checkin_notification for Feishu: skips with no card and no
request when the webhook variable is absent or empty, otherwise builds
the card and hands it to the notifier. -/
def send_checkin_notification (env : String → Option String) (results : List Result)
    (execution_time : Option String) (now : String) : NotifyAction :=
  let webhook_url := (env "FEISHU_WEBHOOK").getD ""
  let secret := (env "FEISHU_SECRET").getD ""
  if webhook_url == "" then .skip
  else
    let t := match execution_time with
      | some s => if s == "" then now else s
      | none => now
    .sendCard (build_checkin_card results t) webhook_url (if secret == "" then none else some secret)

/-- The boolean the Feishu send_checkin_notification returns, given the
boolean the transport layer would produce for a card that is actually
sent. -/
def notifyReturn (act : NotifyAction) (transportResult : Bool) : Bool :=
  match act with
  | .skip => false
  | .sendCard _ _ _ => transportResult

end Feishu

set_option maxRecDepth 8192 in
example : DingTalk.get_url "W" (some "SEC123") 1700000000000 =
    "W" ++ "&timestamp=" ++ "1700000000000" ++ "&sign=" ++
      "lkcPI1uoxBY1gUnCnnPH1Kkru0Hqjo7rFpA3haIVhEQ%3D" := by decide

set_option maxRecDepth 8192 in
example : Feishu.build_auth_fields (some "SEC123") 1700000000 =
    [("timestamp", "1700000000"), ("sign", "biGZ7MD7YIt8c5h84f86Oj16K7zuYKh3rICb64woDMM=")] := by
  decide

/-! ### Proof-support helpers -/

/-- Boolean prefix test on character lists. -/
def charsPrefix : List Char → List Char → Bool
  | [], _ => true
  | _ :: _, [] => false
  | a :: as, b :: bs => a == b && charsPrefix as bs

/-- Whether the string `s` starts with the string `pre`. -/
def startsWith (s pre : String) : Bool := charsPrefix pre.data s.data

theorem sw_sum_title : startsWith "# 📋 NewAPI 签到报告" "**汇总**" = false := rfl

theorem sw_sum_blank : startsWith "" "**汇总**" = false := rfl

theorem sw_sum_dash : startsWith "---" "**汇总**" = false := rfl

theorem sw_sum_exec (t : String) : startsWith ("**执行时间**: " ++ t) "**汇总**" = false := rfl

theorem sw_sum_sheader (x : String) :
    startsWith ("## ✅ 成功 (" ++ x ++ "个)") "**汇总**" = false := rfl

theorem sw_sum_scol : startsWith "| 账号 | 奖励 | 详情 |" "**汇总**" = false := rfl

theorem sw_sum_ssep : startsWith "|------|------|------|" "**汇总**" = false := rfl

theorem sw_sum_successRow (r : Result) :
    startsWith (DingTalk.successRow r) "**汇总**" = false := rfl

theorem sw_sum_fheader (x : String) :
    startsWith ("## ❌ 失败 (" ++ x ++ "个)") "**汇总**" = false := rfl

theorem sw_sum_fcol : startsWith "| 账号 | 原因 |" "**汇总**" = false := rfl

theorem sw_sum_fsep : startsWith "|------|------|" "**汇总**" = false := rfl

theorem sw_sum_failRow (r : Result) :
    startsWith (DingTalk.failRow r) "**汇总**" = false := rfl

theorem sw_sum_warn : startsWith DingTalk.warnFooterLine "**汇总**" = false := rfl

theorem sw_sum_summary (results : List Result) :
    startsWith (DingTalk.summaryLine results) "**汇总**" = true := by
  simp only [DingTalk.summaryLine]
  split
  · rfl
  · split <;> rfl

theorem sw_warn_title : startsWith "# 📋 NewAPI 签到报告" "> ⚠️" = false := rfl

theorem sw_warn_blank : startsWith "" "> ⚠️" = false := rfl

theorem sw_warn_dash : startsWith "---" "> ⚠️" = false := rfl

theorem sw_warn_exec (t : String) : startsWith ("**执行时间**: " ++ t) "> ⚠️" = false := rfl

theorem sw_warn_sheader (x : String) :
    startsWith ("## ✅ 成功 (" ++ x ++ "个)") "> ⚠️" = false := rfl

theorem sw_warn_scol : startsWith "| 账号 | 奖励 | 详情 |" "> ⚠️" = false := rfl

theorem sw_warn_ssep : startsWith "|------|------|------|" "> ⚠️" = false := rfl

theorem sw_warn_successRow (r : Result) :
    startsWith (DingTalk.successRow r) "> ⚠️" = false := rfl

theorem sw_warn_fheader (x : String) :
    startsWith ("## ❌ 失败 (" ++ x ++ "个)") "> ⚠️" = false := rfl

theorem sw_warn_fcol : startsWith "| 账号 | 原因 |" "> ⚠️" = false := rfl

theorem sw_warn_fsep : startsWith "|------|------|" "> ⚠️" = false := rfl

theorem sw_warn_failRow (r : Result) :
    startsWith (DingTalk.failRow r) "> ⚠️" = false := rfl

theorem sw_warn_warn : startsWith DingTalk.warnFooterLine "> ⚠️" = true := rfl

theorem sw_warn_summary (results : List Result) :
    startsWith (DingTalk.summaryLine results) "> ⚠️" = false := by
  simp only [DingTalk.summaryLine]
  split
  · rfl
  · split <;> rfl

theorem any_map_eq_false {α β : Type} (f : α → β) (p : β → Bool) (l : List α)
    (h : ∀ a, p (f a) = false) : (l.map f).any p = false := by
  induction l with
  | nil => rfl
  | cons a l ih => simp [h, ih]

theorem filter_map_eq_nil {α β : Type} (f : α → β) (p : β → Bool) (l : List α)
    (h : ∀ a, p (f a) = false) : (l.map f).filter p = [] := by
  induction l with
  | nil => rfl
  | cons a l ih => simp [h, ih]

theorem any_eq_not_isEmpty_filter {α : Type} (p : α → Bool) (l : List α) :
    l.any p = !(l.filter p).isEmpty := by
  induction l with
  | nil => rfl
  | cons a l ih =>
    by_cases h : p a = true
    · simp [h]
    · simp only [Bool.not_eq_true] at h
      simp [h, ih]

theorem length_filter_add_length_filter_not {α : Type} (p : α → Bool) (l : List α) :
    (l.filter p).length + (l.filter fun a => !p a).length = l.length := by
  induction l with
  | nil => rfl
  | cons a l ih =>
    by_cases h : p a = true <;> simp [h] <;> omega

/-- Decomposition of the DingTalk report lines into header block, the two
conditional tables, the divider, the summary line, and the conditional
footer warning. -/
theorem DingTalk.build_checkin_report_lines_decomp (results : List Result) (t : String) :
    DingTalk.build_checkin_report_lines results t =
      ["# 📋 NewAPI 签到报告", "", "**执行时间**: " ++ t, "", "---", ""] ++
      (if (results.filter fun r => r.success).isEmpty then [] else
        ["## ✅ 成功 (" ++ toString (results.filter fun r => r.success).length ++ "个)", "",
         "| 账号 | 奖励 | 详情 |", "|------|------|------|"] ++
        (results.filter fun r => r.success).map DingTalk.successRow ++ [""]) ++
      (if (results.filter fun r => !r.success).isEmpty then [] else
        ["## ❌ 失败 (" ++ toString (results.filter fun r => !r.success).length ++ "个)", "",
         "| 账号 | 原因 |", "|------|------|"] ++
        (results.filter fun r => !r.success).map DingTalk.failRow ++ [""]) ++
      ["---", ""] ++ [DingTalk.summaryLine results] ++
      (if ((results.filter fun r => !r.success).filter DingTalk.footSessionFlag).isEmpty then []
       else ["", DingTalk.warnFooterLine]) := by
  simp only [DingTalk.build_checkin_report_lines]
  by_cases h1 : (results.filter fun r => r.success).isEmpty = true <;>
    by_cases h2 : (results.filter fun r => !r.success).isEmpty = true <;>
    simp [h1, h2, List.append_assoc] <;>
    split <;> simp [List.append_assoc]

theorem filter_sum_successRows (l : List Result) :
    (l.map DingTalk.successRow).filter (fun s => startsWith s "**汇总**") = [] :=
  filter_map_eq_nil _ _ _ sw_sum_successRow

theorem filter_sum_failRows (l : List Result) :
    (l.map DingTalk.failRow).filter (fun s => startsWith s "**汇总**") = [] :=
  filter_map_eq_nil _ _ _ sw_sum_failRow

theorem any_warn_successRows (l : List Result) :
    (l.map DingTalk.successRow).any (fun s => startsWith s "> ⚠️") = false :=
  any_map_eq_false _ _ _ sw_warn_successRow

theorem any_warn_failRows (l : List Result) :
    (l.map DingTalk.failRow).any (fun s => startsWith s "> ⚠️") = false :=
  any_map_eq_false _ _ _ sw_warn_failRow

theorem summaryLine_eq (results : List Result) :
    DingTalk.summaryLine results =
      (if (results.filter fun r => !r.success).length = 0 then
         "**汇总**: 全部成功 ✨ (" ++ toString (results.filter fun r => r.success).length ++ "/" ++
           toString results.length ++ ")"
       else if (results.filter fun r => r.success).length = 0 then
         "**汇总**: 全部失败 ⚠️ (" ++ toString (results.filter fun r => !r.success).length ++ "/" ++
           toString results.length ++ ")"
       else
         "**汇总**: 成功 " ++ toString (results.filter fun r => r.success).length ++ "，失败 " ++
           toString (results.filter fun r => !r.success).length) := rfl

set_option maxRecDepth 2048 in
/-- Decomposition of the Feishu card's elements into the metadata block,
the two conditional markdown groups (with the divider between them), and
the closing divider plus summary note. -/
theorem Feishu.build_checkin_card_elements_decomp (results : List Result) (t : String) :
    (Feishu.build_checkin_card results t).elements =
      [.markdown ("**执行时间**: " ++ t ++ "\n**账号总数**: " ++ toString results.length), .hr] ++
      (if (results.filter fun r => r.success).isEmpty then [] else
        [.markdown (String.intercalate "\n"
          (("✅ **成功 " ++ toString (results.filter fun r => r.success).length ++ " 个**") ::
           (results.filter fun r => r.success).map Feishu.successLine))]) ++
      (if (results.filter fun r => !r.success).isEmpty then [] else
        (if (results.filter fun r => r.success).isEmpty then [] else [.hr]) ++
        [.markdown (String.intercalate "\n"
          (("❌ **失败 " ++ toString (results.filter fun r => !r.success).length ++ " 个**") ::
           (results.filter fun r => !r.success).map Feishu.failLine))]) ++
      [.hr, .note ("汇总: 成功 " ++ toString (results.filter fun r => r.success).length ++
                   "，失败 " ++ toString (results.filter fun r => !r.success).length)] := by
  simp only [Feishu.build_checkin_card]
  by_cases h1 : (results.filter fun r => r.success).isEmpty = true <;>
    by_cases h2 : (results.filter fun r => !r.success).isEmpty = true <;>
      simp [h1, h2, List.append_assoc]

/-! ### Claim theorems -/

/-- Claim C1 as stated is false: the 500000 input is below the
million threshold, so format_quota renders it in units of K, not M. -/
theorem C1_counterexample : DingTalk.format_quota 500000 ≠ "0.50M" := by decide

/-- Claim C1, amended: for the integer inputs 500000, 1500 and 999,
format_quota (identical in both provider modules) returns "500.00K",
"1.50K" and "999" respectively. -/
theorem C1_amended :
    DingTalk.format_quota 500000 = "500.00K" ∧
    DingTalk.format_quota 1500 = "1.50K" ∧
    DingTalk.format_quota 999 = "999" ∧
    Feishu.format_quota 500000 = "500.00K" ∧
    Feishu.format_quota 1500 = "1.50K" ∧
    Feishu.format_quota 999 = "999" ∧
    ∀ q : Int, DingTalk.format_quota q = Feishu.format_quota q :=
  ⟨by decide, by decide, by decide, by decide, by decide, by decide, fun _ => rfl⟩

/-- Claim C2: with a non-empty secret configured, the DingTalk request
URL is the webhook URL extended with the decimal epoch-millisecond
timestamp and the percent-encoded base64 HMAC-SHA256 tag, keyed by the
UTF-8 secret, over the UTF-8 bytes of the timestamp, a newline, and the
secret; with no secret (absent or empty) the webhook URL is unchanged. -/
theorem C2_dingtalk_signing (webhook secret : String) (tsMs : Nat) :
    (DingTalk.get_url webhook (some secret) tsMs =
      if secret == "" then webhook
      else webhook ++ "&timestamp=" ++ toString tsMs ++ "&sign=" ++
        Crypto.quote_plus (Crypto.base64EncodeBytes
          (Crypto.hmacSha256 (Crypto.utf8 secret)
            (Crypto.utf8 (toString tsMs ++ "\n" ++ secret))))) ∧
    DingTalk.get_url webhook none tsMs = webhook := by
  constructor
  · cases hs : secret == ""
    · simp [DingTalk.get_url, DingTalk.secretTruthy, DingTalk.get_sign, hs]
    · simp [DingTalk.get_url, DingTalk.secretTruthy, hs]
  · rfl

/-- Claim C3: with a non-empty secret configured, the Feishu interactive
card payload is the message-type and card fields augmented with the
top-level decimal epoch-second timestamp and the plain base64 (not
percent-encoded) HMAC-SHA256 tag over the UTF-8 bytes of the timestamp,
a newline, and the secret; with no secret (absent or empty) no signature
fields are attached. -/
theorem C3_feishu_signing (card : Feishu.Card) (secret : String) (tsS : Nat) :
    (Feishu.send_interactive_card_data card (some secret) tsS =
      if secret == "" then
        [("msg_type", Feishu.PayloadValue.str "interactive"),
         ("card", Feishu.PayloadValue.card card)]
      else
        [("msg_type", Feishu.PayloadValue.str "interactive"),
         ("card", Feishu.PayloadValue.card card),
         ("timestamp", Feishu.PayloadValue.str (toString tsS)),
         ("sign", Feishu.PayloadValue.str (Crypto.asciiDecode (Crypto.base64EncodeBytes
           (Crypto.hmacSha256 (Crypto.utf8 secret)
             (Crypto.utf8 (toString tsS ++ "\n" ++ secret))))))]) ∧
    Feishu.send_interactive_card_data card none tsS =
      [("msg_type", Feishu.PayloadValue.str "interactive"),
       ("card", Feishu.PayloadValue.card card)] ∧
    Feishu.build_auth_fields none tsS = [] ∧
    Feishu.build_auth_fields (some "") tsS = [] := by
  refine ⟨?_, rfl, rfl, rfl⟩
  cases hs : secret == ""
  · have ht : DingTalk.secretTruthy (some secret) = true := by
      simp [DingTalk.secretTruthy, hs]
    simp [Feishu.send_interactive_card_data, Feishu.build_auth_fields, ht, hs,
          Feishu.dictUpdate, Feishu.dictSet]
  · have ht : DingTalk.secretTruthy (some secret) = false := by
      simp [DingTalk.secretTruthy, hs]
    simp [Feishu.send_interactive_card_data, Feishu.build_auth_fields, ht, hs,
          Feishu.dictUpdate, Feishu.dictSet]

/-- Claim C4 as stated is false: for a failure record whose
session_expired flag is truthy (and whose message even says the session
expired), the provider-B card carries no warning marker anywhere in its
elements, hence also no warning footer. -/
theorem C4_counterexample :
    ((Feishu.build_checkin_card
        [{ name := some "测试站", success := false, message := some "Session 已过期",
           session_expired := true }] "2024-01-01 08:00:00").elements.any
      (fun e => match e with
        | Feishu.CardElement.markdown s => pyContains s "⚠"
        | Feishu.CardElement.note s => pyContains s "⚠"
        | Feishu.CardElement.hr => false)) = false := by decide

/-- Claim C4, amended: only provider A's text report applies the
session-expiry annotation.  There, a failure row's displayed message is
the record's message (defaulted when absent) prefixed with the warning
marker exactly when the session_expired flag is truthy, the lowercased
message contains "session", or the message contains 认证 or 过期; the
row test and the footer test agree on every record; the failure rows
appear in the report exactly when failures exist; and the warning footer
line occurs in the report exactly when at least one failure record is so
flagged.  Provider B's card instead renders every failure message
unchanged. -/
theorem C4_amended (results : List Result) (t : String) :
    (∀ r : Result,
      DingTalk.failRow r =
        "| " ++ r.name.getD "未知账号" ++ " | " ++
          (if r.session_expired ||
              pyContains (pyLower (r.message.getD "未知错误")) "session" ||
              pyContains (r.message.getD "未知错误") "认证" ||
              pyContains (r.message.getD "未知错误") "过期" then
             "⚠️ " ++ r.message.getD "未知错误"
           else r.message.getD "未知错误") ++ " |") ∧
    (∀ r : Result, DingTalk.rowSessionFlag r = DingTalk.footSessionFlag r) ∧
    (∃ pre post, DingTalk.build_checkin_report_lines results t =
      pre ++ (if (results.filter fun r => !r.success).isEmpty then []
              else (results.filter fun r => !r.success).map DingTalk.failRow) ++ post) ∧
    ((DingTalk.build_checkin_report_lines results t).any (fun l => startsWith l "> ⚠️") =
      (results.filter fun r => !r.success).any
        (fun r => r.session_expired ||
          pyContains (pyLower (r.message.getD "")) "session" ||
          pyContains (r.message.getD "") "认证" ||
          pyContains (r.message.getD "") "过期")) ∧
    (∀ r : Result,
      Feishu.failLine r = "- `" ++ r.name.getD "未知账号" ++ "` | 原因: " ++
        r.message.getD "未知错误") ∧
    (∃ pre post, (Feishu.build_checkin_card results t).elements =
      pre ++ (if (results.filter fun r => !r.success).isEmpty then []
              else [.markdown (String.intercalate "\n"
                (("❌ **失败 " ++ toString (results.filter fun r => !r.success).length ++ " 个**") ::
                 (results.filter fun r => !r.success).map Feishu.failLine))]) ++ post) := by
  refine ⟨fun r => rfl, ?_, ?_, ?_, fun r => rfl, ?_⟩
  · intro r
    rcases r with ⟨n, s, m, q, c, e⟩
    cases m <;> cases e <;> rfl
  · cases he : (results.filter fun r => !r.success).isEmpty
    · refine ⟨["# 📋 NewAPI 签到报告", "", "**执行时间**: " ++ t, "", "---", ""] ++
        (if (results.filter fun r => r.success).isEmpty then [] else
          ["## ✅ 成功 (" ++ toString (results.filter fun r => r.success).length ++ "个)", "",
           "| 账号 | 奖励 | 详情 |", "|------|------|------|"] ++
          (results.filter fun r => r.success).map DingTalk.successRow ++ [""]) ++
        ["## ❌ 失败 (" ++ toString (results.filter fun r => !r.success).length ++ "个)", "",
         "| 账号 | 原因 |", "|------|------|"],
        [""] ++ ["---", ""] ++ [DingTalk.summaryLine results] ++
        (if ((results.filter fun r => !r.success).filter DingTalk.footSessionFlag).isEmpty then []
         else ["", DingTalk.warnFooterLine]), ?_⟩
      rw [DingTalk.build_checkin_report_lines_decomp]
      simp [he, List.append_assoc]
    · exact ⟨DingTalk.build_checkin_report_lines results t, [], by simp [he]⟩
  · rw [DingTalk.build_checkin_report_lines_decomp]
    have hfoot : (fun r : Result => r.session_expired ||
        pyContains (pyLower (r.message.getD "")) "session" ||
        pyContains (r.message.getD "") "认证" ||
        pyContains (r.message.getD "") "过期") = DingTalk.footSessionFlag := rfl
    rw [hfoot]
    conv_rhs => rw [any_eq_not_isEmpty_filter]
    cases he : ((results.filter fun r => !r.success).filter
        DingTalk.footSessionFlag).isEmpty <;>
      by_cases h1 : (results.filter fun r => r.success).isEmpty = true <;>
      by_cases h2 : (results.filter fun r => !r.success).isEmpty = true <;>
      simp [h1, h2, List.any_append, List.any_cons, sw_warn_title, sw_warn_blank,
            sw_warn_dash, sw_warn_exec, sw_warn_sheader, sw_warn_scol, sw_warn_ssep,
            sw_warn_fheader, sw_warn_fcol, sw_warn_fsep, sw_warn_warn, sw_warn_summary,
            any_warn_successRows, any_warn_failRows]
  · cases he : (results.filter fun r => !r.success).isEmpty
    · refine ⟨[.markdown ("**执行时间**: " ++ t ++ "\n**账号总数**: " ++ toString results.length),
          .hr] ++
        (if (results.filter fun r => r.success).isEmpty then [] else
          [.markdown (String.intercalate "\n"
            (("✅ **成功 " ++ toString (results.filter fun r => r.success).length ++ " 个**") ::
             (results.filter fun r => r.success).map Feishu.successLine))]) ++
        (if (results.filter fun r => r.success).isEmpty then [] else [.hr]),
        [.hr, .note ("汇总: 成功 " ++ toString (results.filter fun r => r.success).length ++
                     "，失败 " ++ toString (results.filter fun r => !r.success).length)], ?_⟩
      rw [Feishu.build_checkin_card_elements_decomp]
      simp [he, List.append_assoc]
    · exact ⟨(Feishu.build_checkin_card results t).elements, [], by simp [he]⟩

/-- Claim C5: both builders select the summary wording solely from the
success and failure counts.  Provider A's report contains exactly one
summary line, namely the all-success wording when there are no failures,
the all-failure wording when there are no successes, and otherwise the
mixed wording carrying both exact counts; provider B's card title embeds
the analogous selection. -/
theorem C5_summary_selection (results : List Result) (t : String) :
    ((DingTalk.build_checkin_report_lines results t).filter
        (fun l => startsWith l "**汇总**") =
      [if (results.filter fun r => !r.success).length = 0 then
         "**汇总**: 全部成功 ✨ (" ++ toString (results.filter fun r => r.success).length ++
           "/" ++ toString results.length ++ ")"
       else if (results.filter fun r => r.success).length = 0 then
         "**汇总**: 全部失败 ⚠️ (" ++ toString (results.filter fun r => !r.success).length ++
           "/" ++ toString results.length ++ ")"
       else
         "**汇总**: 成功 " ++ toString (results.filter fun r => r.success).length ++
           "，失败 " ++ toString (results.filter fun r => !r.success).length]) ∧
    ((Feishu.build_checkin_card results t).headerTitle =
      "NewAPI 签到报告 | " ++
        (if (results.filter fun r => !r.success).length = 0 then
           "签到完成: 全部成功 (" ++ toString (results.filter fun r => r.success).length ++ ")"
         else if (results.filter fun r => r.success).length = 0 then
           "签到完成: 全部失败 (" ++ toString (results.filter fun r => !r.success).length ++ ")"
         else
           "签到完成: 成功 " ++ toString (results.filter fun r => r.success).length ++
             " / 失败 " ++ toString (results.filter fun r => !r.success).length)) := by
  constructor
  · rw [DingTalk.build_checkin_report_lines_decomp, ← summaryLine_eq]
    cases he : ((results.filter fun r => !r.success).filter
        DingTalk.footSessionFlag).isEmpty <;>
      by_cases h1 : (results.filter fun r => r.success).isEmpty = true <;>
      by_cases h2 : (results.filter fun r => !r.success).isEmpty = true <;>
      simp [h1, h2, List.filter_append, List.filter_cons, sw_sum_title, sw_sum_blank,
            sw_sum_dash, sw_sum_exec, sw_sum_sheader, sw_sum_scol, sw_sum_ssep,
            sw_sum_fheader, sw_sum_fcol, sw_sum_fsep, sw_sum_warn, sw_sum_summary,
            filter_sum_successRows, filter_sum_failRows]
  · rfl

/-- Claim C6: both builders partition the records into the success
subset (truthy success field) and the failure subset, each a sublist of
the input (so input order is preserved inside each group), the two
subset sizes add up to the input length, the group headers display
exactly the subset sizes, and the rendered rows of each group are the
row images of the corresponding subset in order. -/
theorem C6_partition (results : List Result) (t : String) :
    List.Sublist (results.filter fun r => r.success) results ∧
    List.Sublist (results.filter fun r => !r.success) results ∧
    ((results.filter fun r => r.success).length +
      (results.filter fun r => !r.success).length = results.length) ∧
    (∀ r : Result, r ∈ (results.filter fun r => r.success) ↔ r ∈ results ∧ r.success = true) ∧
    (∀ r : Result, r ∈ (results.filter fun r => !r.success) ↔ r ∈ results ∧ r.success = false) ∧
    (∃ pre post, DingTalk.build_checkin_report_lines results t =
      pre ++ (if (results.filter fun r => r.success).isEmpty then [] else
        ["## ✅ 成功 (" ++ toString (results.filter fun r => r.success).length ++ "个)", "",
         "| 账号 | 奖励 | 详情 |", "|------|------|------|"] ++
        (results.filter fun r => r.success).map DingTalk.successRow ++ [""]) ++ post) ∧
    (∃ pre post, DingTalk.build_checkin_report_lines results t =
      pre ++ (if (results.filter fun r => !r.success).isEmpty then [] else
        ["## ❌ 失败 (" ++ toString (results.filter fun r => !r.success).length ++ "个)", "",
         "| 账号 | 原因 |", "|------|------|"] ++
        (results.filter fun r => !r.success).map DingTalk.failRow ++ [""]) ++ post) ∧
    (∃ pre post, (Feishu.build_checkin_card results t).elements =
      pre ++ (if (results.filter fun r => r.success).isEmpty then [] else
        [.markdown (String.intercalate "\n"
          (("✅ **成功 " ++ toString (results.filter fun r => r.success).length ++ " 个**") ::
           (results.filter fun r => r.success).map Feishu.successLine))]) ++ post) ∧
    (∃ pre post, (Feishu.build_checkin_card results t).elements =
      pre ++ (if (results.filter fun r => !r.success).isEmpty then [] else
        [.markdown (String.intercalate "\n"
          (("❌ **失败 " ++ toString (results.filter fun r => !r.success).length ++ " 个**") ::
           (results.filter fun r => !r.success).map Feishu.failLine))]) ++ post) := by
  refine ⟨List.filter_sublist _, List.filter_sublist _,
    length_filter_add_length_filter_not _ _, ?_, ?_, ?_, ?_, ?_, ?_⟩
  · intro r
    simp [List.mem_filter]
  · intro r
    simp [List.mem_filter]
  · refine ⟨["# 📋 NewAPI 签到报告", "", "**执行时间**: " ++ t, "", "---", ""],
      (if (results.filter fun r => !r.success).isEmpty then [] else
        ["## ❌ 失败 (" ++ toString (results.filter fun r => !r.success).length ++ "个)", "",
         "| 账号 | 原因 |", "|------|------|"] ++
        (results.filter fun r => !r.success).map DingTalk.failRow ++ [""]) ++
      ["---", ""] ++ [DingTalk.summaryLine results] ++
      (if ((results.filter fun r => !r.success).filter DingTalk.footSessionFlag).isEmpty then []
       else ["", DingTalk.warnFooterLine]), ?_⟩
    rw [DingTalk.build_checkin_report_lines_decomp]
    simp [List.append_assoc]
  · refine ⟨["# 📋 NewAPI 签到报告", "", "**执行时间**: " ++ t, "", "---", ""] ++
      (if (results.filter fun r => r.success).isEmpty then [] else
        ["## ✅ 成功 (" ++ toString (results.filter fun r => r.success).length ++ "个)", "",
         "| 账号 | 奖励 | 详情 |", "|------|------|------|"] ++
        (results.filter fun r => r.success).map DingTalk.successRow ++ [""]),
      ["---", ""] ++ [DingTalk.summaryLine results] ++
      (if ((results.filter fun r => !r.success).filter DingTalk.footSessionFlag).isEmpty then []
       else ["", DingTalk.warnFooterLine]), ?_⟩
    rw [DingTalk.build_checkin_report_lines_decomp]
    simp [List.append_assoc]
  · refine ⟨[.markdown ("**执行时间**: " ++ t ++ "\n**账号总数**: " ++ toString results.length),
      .hr],
      (if (results.filter fun r => !r.success).isEmpty then [] else
        (if (results.filter fun r => r.success).isEmpty then [] else [.hr]) ++
        [.markdown (String.intercalate "\n"
          (("❌ **失败 " ++ toString (results.filter fun r => !r.success).length ++ " 个**") ::
           (results.filter fun r => !r.success).map Feishu.failLine))]) ++
      [.hr, .note ("汇总: 成功 " ++ toString (results.filter fun r => r.success).length ++
                   "，失败 " ++ toString (results.filter fun r => !r.success).length)], ?_⟩
    rw [Feishu.build_checkin_card_elements_decomp]
    simp [List.append_assoc]
  · refine ⟨[.markdown ("**执行时间**: " ++ t ++ "\n**账号总数**: " ++ toString results.length),
      .hr] ++
      (if (results.filter fun r => r.success).isEmpty then [] else
        [.markdown (String.intercalate "\n"
          (("✅ **成功 " ++ toString (results.filter fun r => r.success).length ++ " 个**") ::
           (results.filter fun r => r.success).map Feishu.successLine))]) ++
      (if (results.filter fun r => r.success).isEmpty then [] else
        (if (results.filter fun r => !r.success).isEmpty then [] else [.hr])),
      [.hr, .note ("汇总: 成功 " ++ toString (results.filter fun r => r.success).length ++
                   "，失败 " ++ toString (results.filter fun r => !r.success).length)], ?_⟩
    rw [Feishu.build_checkin_card_elements_decomp]
    cases hf : (results.filter fun r => !r.success).isEmpty <;>
      cases hs : (results.filter fun r => r.success).isEmpty <;>
      simp [hf, hs, List.append_assoc]

/-- Claim C7: every round-trip outcome is mapped to a plain boolean by
the providers' _send — a raised fault (connection error, timeout,
non-JSON body) yields false because the try block spans the whole body,
and a parsed response yields true exactly when its status field (errcode
for provider A, code for provider B) is present and Python-equal to 0;
in particular an absent or non-zero status yields false. -/
theorem C7_send_fault_handling (o : HttpOutcome) :
    (DingTalk.send o = true ↔
      ∃ d, o = HttpOutcome.body d ∧ pyEqZero (pyGet d "errcode") = true) ∧
    (Feishu.send o = true ↔
      ∃ d, o = HttpOutcome.body d ∧ pyEqZero (pyGet d "code") = true) ∧
    DingTalk.send HttpOutcome.raises = false ∧
    Feishu.send HttpOutcome.raises = false := by
  refine ⟨?_, ?_, rfl, rfl⟩
  · constructor
    · intro ht
      cases o with
      | raises => exact absurd ht (by simp [DingTalk.send])
      | body d =>
        refine ⟨d, rfl, ?_⟩
        by_cases h : pyEqZero (pyGet d "errcode") = true
        · exact h
        · simp [DingTalk.send, h] at ht
    · rintro ⟨d, hd, h⟩
      subst hd
      simp [DingTalk.send, h]
  · constructor
    · intro ht
      cases o with
      | raises => exact absurd ht (by simp [Feishu.send])
      | body d =>
        refine ⟨d, rfl, ?_⟩
        by_cases h : pyEqZero (pyGet d "code") = true
        · exact h
        · simp [Feishu.send, h] at ht
    · rintro ⟨d, hd, h⟩
      subst hd
      simp [Feishu.send, h]

/-- Claim C8: when the provider's webhook environment variable is absent
or empty, send_checkin_notification takes the skip action — no report or
card is built and nothing is handed to the transport — and returns false
regardless of what the transport would have answered. -/
theorem C8_skip_without_webhook (envD envF : String → Option String) (results : List Result)
    (et : Option String) (now : String) (tr : Bool)
    (hD : (envD "DINGTALK_WEBHOOK").getD "" = "")
    (hF : (envF "FEISHU_WEBHOOK").getD "" = "") :
    DingTalk.send_checkin_notification envD results et now = DingTalk.NotifyAction.skip ∧
    DingTalk.notifyReturn (DingTalk.send_checkin_notification envD results et now) tr = false ∧
    Feishu.send_checkin_notification envF results et now = Feishu.NotifyAction.skip ∧
    Feishu.notifyReturn (Feishu.send_checkin_notification envF results et now) tr = false := by
  have h1 : DingTalk.send_checkin_notification envD results et now
      = DingTalk.NotifyAction.skip := by
    simp [DingTalk.send_checkin_notification, hD]
  have h2 : Feishu.send_checkin_notification envF results et now
      = Feishu.NotifyAction.skip := by
    simp [Feishu.send_checkin_notification, hF]
  exact ⟨h1, by rw [h1]; rfl, h2, by rw [h2]; rfl⟩

/-- Witness for claim C8 at a concrete empty environment. -/
theorem C8_skip_without_webhook_witness :
    DingTalk.send_checkin_notification (fun _ => none) [] none "2024-01-01 08:00:00"
      = DingTalk.NotifyAction.skip ∧
    DingTalk.notifyReturn
      (DingTalk.send_checkin_notification (fun _ => none) [] none "2024-01-01 08:00:00")
      true = false ∧
    Feishu.send_checkin_notification (fun _ => none) [] none "2024-01-01 08:00:00"
      = Feishu.NotifyAction.skip ∧
    Feishu.notifyReturn
      (Feishu.send_checkin_notification (fun _ => none) [] none "2024-01-01 08:00:00")
      true = false :=
  C8_skip_without_webhook (fun _ => none) (fun _ => none) [] none "2024-01-01 08:00:00" true
    rfl rfl

/-- Claim C9: both report builders are pure functions of the record
fields and the execution-time string — any two input lists that agree
field by field, with equal time strings, produce identical outputs.  In
this embedding the inputs are immutable values, which models the fact
that the source only ever reads the record dicts. -/
theorem C9_builders_deterministic (rs1 rs2 : List Result) (t1 t2 : String)
    (h : List.Forall₂ (fun a b : Result =>
        a.name = b.name ∧ a.success = b.success ∧ a.message = b.message ∧
        a.quota_awarded = b.quota_awarded ∧ a.checkin_count = b.checkin_count ∧
        a.session_expired = b.session_expired) rs1 rs2)
    (ht : t1 = t2) :
    DingTalk.build_checkin_report rs1 t1 = DingTalk.build_checkin_report rs2 t2 ∧
    Feishu.build_checkin_card rs1 t1 = Feishu.build_checkin_card rs2 t2 := by
  have hl : rs1 = rs2 := by
    induction h with
    | nil => rfl
    | cons hab hrest ih =>
      rename_i a b l1 l2
      obtain ⟨e1, e2, e3, e4, e5, e6⟩ := hab
      cases a; cases b
      simp_all
  subst hl ht
  exact ⟨rfl, rfl⟩

/-- Witness for claim C9 on a concrete one-record list. -/
theorem C9_builders_deterministic_witness :
    DingTalk.build_checkin_report
        [{ name := some "主力站", success := true, message := some "签到成功",
           quota_awarded := some 500000, checkin_count := some 15 }] "2024-01-01 08:00:00" =
      DingTalk.build_checkin_report
        [{ name := some "主力站", success := true, message := some "签到成功",
           quota_awarded := some 500000, checkin_count := some 15 }] "2024-01-01 08:00:00" ∧
    Feishu.build_checkin_card
        [{ name := some "主力站", success := true, message := some "签到成功",
           quota_awarded := some 500000, checkin_count := some 15 }] "2024-01-01 08:00:00" =
      Feishu.build_checkin_card
        [{ name := some "主力站", success := true, message := some "签到成功",
           quota_awarded := some 500000, checkin_count := some 15 }] "2024-01-01 08:00:00" :=
  C9_builders_deterministic _ _ _ _
    (List.Forall₂.cons ⟨rfl, rfl, rfl, rfl, rfl, rfl⟩ List.Forall₂.nil) rfl

/-- Claim C10: the empty results list takes the zero-failures branch in
both builders — provider A's report has no tables and ends in the
all-success summary with counts 0/0 and no footer, and provider B's card
gets the green header with the all-success title over zero accounts. -/
theorem C10_empty_batch (t : String) :
    DingTalk.build_checkin_report_lines [] t =
      ["# 📋 NewAPI 签到报告", "", "**执行时间**: " ++ t, "", "---", "",
       "---", "", "**汇总**: 全部成功 ✨ (0/0)"] ∧
    (Feishu.build_checkin_card [] t).headerTemplate = "green" ∧
    (Feishu.build_checkin_card [] t).headerTitle = "NewAPI 签到报告 | 签到完成: 全部成功 (0)" ∧
    (Feishu.build_checkin_card [] t).elements =
      [.markdown ("**执行时间**: " ++ t ++ "\n**账号总数**: " ++ "0"), .hr,
       .hr, .note "汇总: 成功 0，失败 0"] :=
  ⟨rfl, rfl, rfl, rfl⟩

end NewapiCheckin
